import Mathlib

/-!
Verification of the send-and-stream controller of the mcp-client repository.

The whole behaviour under study is the `sendMessage` procedure of
src/App.vue together with the reactive state it mutates: the transcript
(`messages`), the pending-input buffer (`newMessageContent`) and the busy
flag (`isLoading`).  We embed that procedure as a pure state-transition
function.  The environment of one invocation — the millisecond clock read
by Date.now(), the Math.random() draws, and the behaviour of the remote
stream returned by apiClient.sendMessage — is passed in explicitly: a
clock value for the user-message push and a `StreamOutcome` describing
the fragments the stream yields (each with the clock/random values read
when it is pushed) and whether the stream ends normally or raises.
Errors are absorbed by the try/catch of the source, so the embedded
function is total: it returns the final state, never a failure.
-/

/-- Model of JS String.prototype.trim on the character list: drop leading
and trailing whitespace (whitespace per Char.isWhitespace, the model of
the JS WhiteSpace/LineTerminator set). -/
def trimChars (cs : List Char) : List Char :=
  ((cs.dropWhile Char.isWhitespace).reverse.dropWhile Char.isWhitespace).reverse

/-- Model of `newMessageContent.value.trim()` (App.vue line 25).
The String.trim of Lean itself is not kernel-reducible, so the trim is modelled
structurally on the underlying character list. -/
def jsTrim (s : String) : String := String.mk (trimChars s.data)

/-- The `sender` field of a ChatMessage: "user" or "api" (App.vue line 10). -/
inductive Sender where
  | user
  | api
deriving DecidableEq, Repr

/-- The `status` field of a ChatMessage (App.vue line 11). -/
inductive MsgStatus where
  | sending
  | sent
  | failed
  | streaming
deriving DecidableEq, Repr

/-- One transcript entry, the ChatMessage interface of App.vue lines 7-12.
`id` is a JS number: Date.now() yields a natural, Date.now() + Math.random()
a non-integral value, so ids live in ℚ.  `status` is optional in the
source (`status?:`), hence Option. -/
structure ChatMessage where
  id : ℚ
  content : String
  sender : Sender
  status : Option MsgStatus
deriving DecidableEq, Repr

/-- The reactive state mutated by sendMessage: the `messages` ref, the
`newMessageContent` ref and the `isLoading` ref (App.vue lines 15-20).
The DOM container ref only feeds the out-of-scope scroll side effect and
is omitted. -/
structure AppState where
  messages : List ChatMessage
  newMessageContent : String
  isLoading : Bool
deriving DecidableEq, Repr

/-- One fragment yielded by the remote stream, together with the values
Date.now() and Math.random() return when the corresponding push runs
(App.vue lines 52-57). -/
structure FragmentEvent where
  content : String
  now : ℕ
  rand : ℚ
deriving DecidableEq, Repr

/-- The observable behaviour of one remote stream: the fragments it
yields in order, then either normal completion (`error = none`) or a
raise/reject (`error = some (te, re)`, carrying the Date.now() and
Math.random() values read when the catch block pushes its message).
`fragments = []` with `error = some _` models a raise before the first
fragment; a nonempty list with `error = some _` models a mid-stream or
on-close failure. -/
structure StreamOutcome where
  fragments : List FragmentEvent
  error : Option (ℕ × ℚ)
deriving DecidableEq, Repr

/-- The user message pushed on acceptance (App.vue lines 34-39):
id = Date.now(), sender "user", status "sent". -/
def mkUserMessage (t : ℕ) (content : String) : ChatMessage :=
  { id := (t : ℚ), content := content, sender := Sender.user,
    status := some MsgStatus.sent }

/-- The message pushed for one received fragment (App.vue lines 52-57):
id = Date.now() + Math.random(), sender "api", status "streaming". -/
def mkStreamMessage (f : FragmentEvent) : ChatMessage :=
  { id := (f.now : ℚ) + f.rand, content := f.content, sender := Sender.api,
    status := some MsgStatus.streaming }

/-- The fixed content of the synthetic failure message (App.vue line 76). -/
def errorText : String := "Error receiving message."

/-- The message pushed by the catch block (App.vue lines 74-79):
id = Date.now() + Math.random(), sender "api", status "failed". -/
def mkErrorMessage (t : ℕ) (r : ℚ) : ChatMessage :=
  { id := (t : ℚ) + r, content := errorText, sender := Sender.api,
    status := some MsgStatus.failed }

/-- The post-loop fix-up (App.vue lines 64-70): if the list is nonempty
and its last entry has sender "api", set the status of that entry to "sent"
in place; otherwise do nothing. -/
def markLastSentIfApi (msgs : List ChatMessage) : List ChatMessage :=
  match msgs.getLast? with
  | some m =>
      if m.sender = Sender.api then
        msgs.dropLast ++ [{ m with status := some MsgStatus.sent }]
      else msgs
  | none => msgs

/-- The sendMessage procedure (App.vue lines 24-85) as a state-transition
function.  `t0` is the Date.now() value at the user-message push; `o`
describes the behaviour of the remote stream for this invocation.  Guard:
empty trimmed content or a set busy flag returns the state unchanged.
On acceptance: busy flag true, buffer cleared, user message appended,
one "streaming" message appended per fragment in arrival order; then
either the last-entry fix-up (normal completion) or the synthetic failed
message (raise); finally (in the `finally` block) the busy flag is reset
to false, which is the value it holds in the returned state. -/
def sendMessage (s : AppState) (t0 : ℕ) (o : StreamOutcome) : AppState :=
  let content := jsTrim s.newMessageContent
  if content = "" ∨ s.isLoading then s
  else
    let afterUser := s.messages ++ [mkUserMessage t0 content]
    let afterStream := afterUser ++ o.fragments.map mkStreamMessage
    let finalMsgs :=
      match o.error with
      | none => markLastSentIfApi afterStream
      | some (te, re) => afterStream ++ [mkErrorMessage te re]
    { messages := finalMsgs, newMessageContent := "", isLoading := false }

/-- The payload handed to the outbound call `apiClient.sendMessage({
content: content })` (App.vue line 49): the trimmed input when the guard
passes, nothing when the invocation is rejected. -/
def requestPayload (s : AppState) : Option String :=
  let content := jsTrim s.newMessageContent
  if content = "" ∨ s.isLoading then none
  else some content

/-- An invocation is accepted when the guard of App.vue lines 25-28
passes: nonempty trimmed content and a clear busy flag. -/
def acceptedSend (s : AppState) : Prop :=
  jsTrim s.newMessageContent ≠ "" ∧ s.isLoading = false

instance (s : AppState) : Decidable (acceptedSend s) := by
  unfold acceptedSend; infer_instance

/-- n successive invocations of sendMessage, the k-th using clock value
`ts k` and stream behaviour `os k`; nothing else touches the state
between invocations. -/
def iterSend (ts : ℕ → ℕ) (os : ℕ → StreamOutcome) (s : AppState) : ℕ → AppState
  | 0 => s
  | n + 1 => sendMessage (iterSend ts os s n) (ts n) (os n)

/-- Number of transcript entries carrying the given sender. -/
def countSender (snd : Sender) (l : List ChatMessage) : ℕ :=
  (l.filter (fun m => m.sender == snd)).length

/-- Number of transcript entries carrying the given status. -/
def countWithStatus (st : Option MsgStatus) (l : List ChatMessage) : ℕ :=
  (l.filter (fun m => m.status == st)).length

/-! ### Helper lemmas about the controller -/

lemma accepted_guard (s : AppState) (h : acceptedSend s) :
    ¬(jsTrim s.newMessageContent = "" ∨ (s.isLoading : Prop)) := by
  obtain ⟨h1, h2⟩ := h
  simp [h1, h2]

lemma sendMessage_rejected (s : AppState) (t0 : ℕ) (o : StreamOutcome)
    (h : jsTrim s.newMessageContent = "" ∨ s.isLoading = true) :
    sendMessage s t0 o = s := by
  simp only [sendMessage]
  rw [if_pos h]

lemma sendMessage_accepted (s : AppState) (t0 : ℕ) (o : StreamOutcome)
    (h : acceptedSend s) :
    sendMessage s t0 o =
      { messages :=
          match o.error with
          | none =>
              markLastSentIfApi
                (s.messages ++ [mkUserMessage t0 (jsTrim s.newMessageContent)]
                  ++ o.fragments.map mkStreamMessage)
          | some (te, re) =>
              s.messages ++ [mkUserMessage t0 (jsTrim s.newMessageContent)]
                ++ o.fragments.map mkStreamMessage ++ [mkErrorMessage te re],
        newMessageContent := "", isLoading := false } := by
  simp only [sendMessage]
  rw [if_neg (accepted_guard s h)]

lemma markLast_concat (l : List ChatMessage) (a : ChatMessage) :
    markLastSentIfApi (l ++ [a]) =
      if a.sender = Sender.api then l ++ [{ a with status := some MsgStatus.sent }]
      else l ++ [a] := by
  simp [markLastSentIfApi, List.getLast?_concat, List.dropLast_concat]

lemma sendMessage_flags (s : AppState) (t0 : ℕ) (o : StreamOutcome)
    (h : acceptedSend s) :
    (sendMessage s t0 o).newMessageContent = "" ∧
      (sendMessage s t0 o).isLoading = false := by
  rw [sendMessage_accepted s t0 o h]
  exact ⟨rfl, rfl⟩

lemma messages_of_error (s : AppState) (t0 te : ℕ) (re : ℚ)
    (frags : List FragmentEvent) (h : acceptedSend s) :
    (sendMessage s t0 ⟨frags, some (te, re)⟩).messages =
      s.messages ++ [mkUserMessage t0 (jsTrim s.newMessageContent)]
        ++ frags.map mkStreamMessage ++ [mkErrorMessage te re] := by
  rw [sendMessage_accepted s t0 _ h]

lemma messages_of_ok_nil (s : AppState) (t0 : ℕ) (h : acceptedSend s) :
    (sendMessage s t0 ⟨[], none⟩).messages =
      s.messages ++ [mkUserMessage t0 (jsTrim s.newMessageContent)] := by
  rw [sendMessage_accepted s t0 _ h]
  show markLastSentIfApi
      (s.messages ++ [mkUserMessage t0 (jsTrim s.newMessageContent)] ++ []) = _
  rw [List.append_nil, markLast_concat]
  simp [mkUserMessage]

lemma messages_of_ok_cons (s : AppState) (t0 : ℕ)
    (frags : List FragmentEvent) (h : acceptedSend s) (hf : frags ≠ []) :
    (sendMessage s t0 ⟨frags, none⟩).messages =
      s.messages ++ [mkUserMessage t0 (jsTrim s.newMessageContent)]
        ++ frags.dropLast.map mkStreamMessage
        ++ [{ mkStreamMessage (frags.getLast hf) with
                status := some MsgStatus.sent }] := by
  rw [sendMessage_accepted s t0 _ h]
  show markLastSentIfApi
      (s.messages ++ [mkUserMessage t0 (jsTrim s.newMessageContent)]
        ++ frags.map mkStreamMessage) = _
  have hdec : frags.map mkStreamMessage =
      frags.dropLast.map mkStreamMessage
        ++ [mkStreamMessage (frags.getLast hf)] := by
    conv_lhs => rw [← List.dropLast_concat_getLast hf]
    rw [List.map_append]
    rfl
  rw [hdec, ← List.append_assoc, markLast_concat]
  have : (mkStreamMessage (frags.getLast hf)).sender = Sender.api := rfl
  rw [if_pos this, List.append_assoc]

/-! ### Claims -/

/-- C7: an invocation of sendMessage while the busy flag is true is a
complete no-op: transcript, busy flag and pending-input buffer are all
unchanged, and (the function being total) no error is raised. -/
theorem claim_C7_busy_noop (s : AppState) (t0 : ℕ) (o : StreamOutcome)
    (h : s.isLoading = true) : sendMessage s t0 o = s :=
  sendMessage_rejected s t0 o (Or.inr h)

theorem claim_C7_busy_noop_witness :
    (⟨[], "hi", true⟩ : AppState).isLoading = true ∧
      sendMessage ⟨[], "hi", true⟩ 7 ⟨[], none⟩ = ⟨[], "hi", true⟩ :=
  ⟨rfl, claim_C7_busy_noop ⟨[], "hi", true⟩ 7 ⟨[], none⟩ rfl⟩

/-- C8: an invocation of sendMessage while idle whose input trims to the
empty string is a complete no-op: no transcript mutation, the busy flag
stays false, and (the function being total) no error is raised. -/
theorem claim_C8_empty_noop (s : AppState) (t0 : ℕ) (o : StreamOutcome)
    (h1 : jsTrim s.newMessageContent = "") (h2 : s.isLoading = false) :
    sendMessage s t0 o = s :=
  sendMessage_rejected s t0 o (Or.inl h1)

theorem claim_C8_empty_noop_witness :
    jsTrim (⟨[], "   ", false⟩ : AppState).newMessageContent = "" ∧
      (⟨[], "   ", false⟩ : AppState).isLoading = false ∧
      sendMessage ⟨[], "   ", false⟩ 3 ⟨[], none⟩ = ⟨[], "   ", false⟩ :=
  ⟨by decide, rfl, claim_C8_empty_noop ⟨[], "   ", false⟩ 3 ⟨[], none⟩ (by decide) rfl⟩

/-- C9: idempotence of the rejected call: any number n of sendMessage
invocations with empty input, starting from the idle state, leaves the
transcript length at its initial value (whatever clock values and stream
behaviours the environment would have supplied). -/
theorem claim_C9_idempotent (s : AppState) (ts : ℕ → ℕ)
    (os : ℕ → StreamOutcome) (n : ℕ)
    (h1 : s.newMessageContent = "") (h2 : s.isLoading = false) :
    (iterSend ts os s n).messages.length = s.messages.length := by
  have key : iterSend ts os s n = s := by
    induction n with
    | zero => rfl
    | succ n ih =>
        show sendMessage (iterSend ts os s n) (ts n) (os n) = s
        rw [ih]
        exact sendMessage_rejected s (ts n) (os n)
          (Or.inl (by rw [h1]; rfl))
  rw [key]

theorem claim_C9_idempotent_witness :
    (⟨[], "", false⟩ : AppState).newMessageContent = "" ∧
      (⟨[], "", false⟩ : AppState).isLoading = false ∧
      (iterSend (fun _ => 5) (fun _ => ⟨[], none⟩) ⟨[], "", false⟩
          4).messages.length = (⟨[], "", false⟩ : AppState).messages.length :=
  ⟨rfl, rfl,
    claim_C9_idempotent ⟨[], "", false⟩ (fun _ => 5) (fun _ => ⟨[], none⟩) 4 rfl rfl⟩

/-- C6: an accepted send whose stream yields zero fragments and completes
normally appends only the user message (so no remote entry for the turn,
and no fix-up of any existing entry: the transcript is exactly the old
one plus the user message, whose sender is "user"), and the busy flag is
false afterwards. -/
theorem claim_C6_empty_stream (s : AppState) (t0 : ℕ)
    (h : acceptedSend s) :
    (sendMessage s t0 ⟨[], none⟩).messages =
        s.messages ++ [mkUserMessage t0 (jsTrim s.newMessageContent)] ∧
      (mkUserMessage t0 (jsTrim s.newMessageContent)).sender = Sender.user ∧
      (sendMessage s t0 ⟨[], none⟩).isLoading = false :=
  ⟨messages_of_ok_nil s t0 h, rfl, (sendMessage_flags s t0 ⟨[], none⟩ h).2⟩

theorem claim_C6_empty_stream_witness :
    acceptedSend ⟨[], "hello", false⟩ ∧
      ((sendMessage ⟨[], "hello", false⟩ 9 ⟨[], none⟩).messages =
          [] ++ [mkUserMessage 9 (jsTrim ("hello"))] ∧
        (mkUserMessage 9 (jsTrim ("hello"))).sender = Sender.user ∧
        (sendMessage ⟨[], "hello", false⟩ 9 ⟨[], none⟩).isLoading = false) :=
  ⟨by decide, claim_C6_empty_stream ⟨[], "hello", false⟩ 9 (by decide)⟩

/-- C1: an accepted send whose stream yields fragments f1..fn (n >= 1)
and completes normally extends the transcript by exactly the user
message followed by one mkStreamMessage per fragment in arrival order
(by definition sender "api", status "streaming", content the fragment
text, one entry per fragment, never merged), with only the last of those
n entries rewritten to status "sent"; the first n-1 keep mkStreamMessage
form, i.e. stay "streaming", and all earlier transcript entries are
untouched. -/
theorem claim_C1_stream_ok (s : AppState) (t0 : ℕ)
    (frags : List FragmentEvent) (h : acceptedSend s) (hf : frags ≠ []) :
    (sendMessage s t0 ⟨frags, none⟩).messages =
      s.messages ++ [mkUserMessage t0 (jsTrim s.newMessageContent)]
        ++ frags.dropLast.map mkStreamMessage
        ++ [{ mkStreamMessage (frags.getLast hf) with
                status := some MsgStatus.sent }] :=
  messages_of_ok_cons s t0 frags h hf

theorem claim_C1_stream_ok_witness :
    acceptedSend ⟨[], "hello", false⟩ ∧
      ([⟨"a", 1, 0⟩, ⟨"b", 2, 0⟩, ⟨"c", 3, 0⟩] : List FragmentEvent) ≠ [] ∧
      (sendMessage ⟨[], "hello", false⟩ 0
          ⟨[⟨"a", 1, 0⟩, ⟨"b", 2, 0⟩, ⟨"c", 3, 0⟩], none⟩).messages =
        [] ++ [mkUserMessage 0 (jsTrim ("hello"))]
          ++ ([⟨"a", 1, 0⟩, ⟨"b", 2, 0⟩, ⟨"c", 3, 0⟩] :
              List FragmentEvent).dropLast.map mkStreamMessage
          ++ [{ mkStreamMessage
                  (([⟨"a", 1, 0⟩, ⟨"b", 2, 0⟩, ⟨"c", 3, 0⟩] :
                      List FragmentEvent).getLast (by decide)) with
                  status := some MsgStatus.sent }] :=
  ⟨by decide, by decide,
    claim_C1_stream_ok ⟨[], "hello", false⟩ 0
      [⟨"a", 1, 0⟩, ⟨"b", 2, 0⟩, ⟨"c", 3, 0⟩] (by decide) (by decide)⟩

/-- C2: an accepted send whose stream raises at any point (frags is the
list of fragments already yielded: empty for a failure before the first
fragment, nonempty for a mid-stream or on-close failure) extends the
transcript by the user message, one untouched mkStreamMessage per
already-streamed fragment (still "streaming"), and exactly one synthetic
message with sender "api", status "failed" and the fixed error text; no
content or status of a previously appended entry is altered, and sendMessage
being a total function into AppState, the error never reaches the
caller. -/
theorem claim_C2_stream_error (s : AppState) (t0 te : ℕ) (re : ℚ)
    (frags : List FragmentEvent) (h : acceptedSend s) :
    (sendMessage s t0 ⟨frags, some (te, re)⟩).messages =
        s.messages ++ [mkUserMessage t0 (jsTrim s.newMessageContent)]
          ++ frags.map mkStreamMessage ++ [mkErrorMessage te re] ∧
      (mkErrorMessage te re).sender = Sender.api ∧
      (mkErrorMessage te re).status = some MsgStatus.failed ∧
      (mkErrorMessage te re).content = errorText :=
  ⟨messages_of_error s t0 te re frags h, rfl, rfl, rfl⟩

theorem claim_C2_stream_error_witness :
    acceptedSend ⟨[], "hello", false⟩ ∧
      ((sendMessage ⟨[], "hello", false⟩ 0
            ⟨[⟨"part", 1, 0⟩], some (2, 1/2)⟩).messages =
          [] ++ [mkUserMessage 0 (jsTrim ("hello"))]
            ++ ([⟨"part", 1, 0⟩] : List FragmentEvent).map mkStreamMessage
            ++ [mkErrorMessage 2 (1/2)] ∧
        (mkErrorMessage 2 (1/2)).sender = Sender.api ∧
        (mkErrorMessage 2 (1/2)).status = some MsgStatus.failed ∧
        (mkErrorMessage 2 (1/2)).content = errorText) :=
  ⟨by decide,
    claim_C2_stream_error ⟨[], "hello", false⟩ 0 2 (1/2)
      [⟨"part", 1, 0⟩] (by decide)⟩

lemma sendMessage_decomp (s : AppState) (t0 : ℕ) (o : StreamOutcome)
    (h : acceptedSend s) :
    ∃ rest : List ChatMessage,
      (sendMessage s t0 o).messages =
        s.messages ++ [mkUserMessage t0 (jsTrim s.newMessageContent)] ++ rest ∧
      ∀ m ∈ rest, m.sender = Sender.api ∧ m.status ≠ some MsgStatus.sending := by
  obtain ⟨frags, err⟩ := o
  cases err with
  | some p =>
      obtain ⟨te, re⟩ := p
      refine ⟨frags.map mkStreamMessage ++ [mkErrorMessage te re], ?_, ?_⟩
      · rw [messages_of_error s t0 te re frags h, List.append_assoc]
      · intro m hm
        rcases List.mem_append.mp hm with hm | hm
        · obtain ⟨f, _, rfl⟩ := List.mem_map.mp hm
          exact ⟨rfl, by simp [mkStreamMessage]⟩
        · rw [List.mem_singleton.mp hm]
          exact ⟨rfl, by simp [mkErrorMessage]⟩
  | none =>
      by_cases hf : frags = []
      · subst hf
        refine ⟨[], ?_, ?_⟩
        · rw [messages_of_ok_nil s t0 h, List.append_nil]
        · intro m hm
          cases hm
      · refine ⟨frags.dropLast.map mkStreamMessage
            ++ [{ mkStreamMessage (frags.getLast hf) with
                    status := some MsgStatus.sent }], ?_, ?_⟩
        · rw [messages_of_ok_cons s t0 frags h hf, List.append_assoc]
        · intro m hm
          rcases List.mem_append.mp hm with hm | hm
          · obtain ⟨f, _, rfl⟩ := List.mem_map.mp hm
            exact ⟨rfl, by simp [mkStreamMessage]⟩
          · rw [List.mem_singleton.mp hm]
            exact ⟨rfl, by simp [mkStreamMessage]⟩

/-- C5: an accepted send leaves every pre-existing transcript entry in
place, appends the user message (status "sent", never "sending")
directly after them — hence before every remote entry of the turn, the
outbound call being issued only after that push — appends no further
user-sender entry, and creates no entry with status "sending" anywhere. -/
theorem claim_C5_user_message (s : AppState) (t0 : ℕ) (o : StreamOutcome)
    (h : acceptedSend s) :
    (sendMessage s t0 o).messages.take s.messages.length = s.messages ∧
      ((sendMessage s t0 o).messages.drop s.messages.length).head? =
        some (mkUserMessage t0 (jsTrim s.newMessageContent)) ∧
      (mkUserMessage t0 (jsTrim s.newMessageContent)).status =
        some MsgStatus.sent ∧
      countSender Sender.user
        ((sendMessage s t0 o).messages.drop (s.messages.length + 1)) = 0 ∧
      countWithStatus (some MsgStatus.sending) (sendMessage s t0 o).messages =
        countWithStatus (some MsgStatus.sending) s.messages := by
  obtain ⟨rest, hmsgs, hrest⟩ := sendMessage_decomp s t0 o h
  refine ⟨?_, ?_, rfl, ?_, ?_⟩
  · rw [hmsgs, List.append_assoc]
    exact List.take_left _ _
  · rw [hmsgs, List.append_assoc, List.drop_left]
    rfl
  · rw [hmsgs, List.drop_left' (by simp)]
    unfold countSender
    rw [List.length_eq_zero, List.filter_eq_nil_iff]
    intro m hm
    rw [(hrest m hm).1]
    decide
  · rw [hmsgs]
    unfold countWithStatus
    rw [List.filter_append, List.filter_append, List.length_append,
      List.length_append]
    have hu : List.filter (fun m => m.status == some MsgStatus.sending)
        [mkUserMessage t0 (jsTrim s.newMessageContent)] = [] := by
      rw [List.filter_eq_nil_iff]
      intro a ha
      rw [List.mem_singleton.mp ha]
      simp [mkUserMessage]
    have hr : List.filter (fun m => m.status == some MsgStatus.sending)
        rest = [] := by
      rw [List.filter_eq_nil_iff]
      intro m hm
      simpa using (hrest m hm).2
    rw [hu, hr]
    simp

theorem claim_C5_user_message_witness :
    acceptedSend ⟨[], "hello", false⟩ ∧
      ((sendMessage ⟨[], "hello", false⟩ 4
            ⟨[⟨"a", 1, 0⟩], none⟩).messages.take
          (⟨[], "hello", false⟩ : AppState).messages.length =
          (⟨[], "hello", false⟩ : AppState).messages ∧
        ((sendMessage ⟨[], "hello", false⟩ 4
              ⟨[⟨"a", 1, 0⟩], none⟩).messages.drop
            (⟨[], "hello", false⟩ : AppState).messages.length).head? =
          some (mkUserMessage 4 (jsTrim ("hello"))) ∧
        (mkUserMessage 4 (jsTrim ("hello"))).status = some MsgStatus.sent ∧
        countSender Sender.user
          ((sendMessage ⟨[], "hello", false⟩ 4
              ⟨[⟨"a", 1, 0⟩], none⟩).messages.drop
            ((⟨[], "hello", false⟩ : AppState).messages.length + 1)) = 0 ∧
        countWithStatus (some MsgStatus.sending)
            (sendMessage ⟨[], "hello", false⟩ 4 ⟨[⟨"a", 1, 0⟩], none⟩).messages =
          countWithStatus (some MsgStatus.sending)
            (⟨[], "hello", false⟩ : AppState).messages) :=
  ⟨by decide,
    claim_C5_user_message ⟨[], "hello", false⟩ 4 ⟨[⟨"a", 1, 0⟩], none⟩ (by decide)⟩

/-- C10: for an accepted send the content of the appended user message is the
whitespace-trimmed input (mkUserMessage is applied to jsTrim of the
buffer, not to the raw buffer), and the payload handed to the outbound
call is that same trimmed text. -/
theorem claim_C10_trimmed_payload (s : AppState) (t0 : ℕ) (o : StreamOutcome)
    (h : acceptedSend s) :
    ((sendMessage s t0 o).messages.drop s.messages.length).head? =
        some (mkUserMessage t0 (jsTrim s.newMessageContent)) ∧
      (mkUserMessage t0 (jsTrim s.newMessageContent)).content =
        jsTrim s.newMessageContent ∧
      requestPayload s = some (jsTrim s.newMessageContent) := by
  obtain ⟨rest, hmsgs, _⟩ := sendMessage_decomp s t0 o h
  refine ⟨?_, rfl, ?_⟩
  · rw [hmsgs, List.append_assoc, List.drop_left]
    rfl
  · simp only [requestPayload]
    rw [if_neg (accepted_guard s h)]

theorem claim_C10_trimmed_payload_witness :
    jsTrim ("  hi  ") = "hi" ∧
      acceptedSend ⟨[], "  hi  ", false⟩ ∧
      (((sendMessage ⟨[], "  hi  ", false⟩ 5 ⟨[], none⟩).messages.drop
            (⟨[], "  hi  ", false⟩ : AppState).messages.length).head? =
          some (mkUserMessage 5 (jsTrim ("  hi  "))) ∧
        (mkUserMessage 5 (jsTrim ("  hi  "))).content = jsTrim ("  hi  ") ∧
        requestPayload ⟨[], "  hi  ", false⟩ = some (jsTrim ("  hi  "))) :=
  ⟨by decide, by decide,
    claim_C10_trimmed_payload ⟨[], "  hi  ", false⟩ 5 ⟨[], none⟩ (by decide)⟩

/-- C3, counterexample to the claim as stated.  First input: a reentrant
invocation (busy flag true, buffer "hi") — the claim demands the busy
flag be false after every invocation, but the guard returns the state
unchanged with the flag still true (the outer operation is still in
flight).  Second input: an idle invocation with buffer already "" — the
claim demands buffer = "" iff the call was accepted, but the rejected
call leaves the buffer "" while the precondition failed. -/
theorem claim_C3_counterexample :
    ¬((sendMessage ⟨[], "hi", true⟩ 0 ⟨[], none⟩).isLoading = false ∧
        ((sendMessage ⟨[], "hi", true⟩ 0 ⟨[], none⟩).newMessageContent = "" ↔
          acceptedSend ⟨[], "hi", true⟩)) ∧
      ¬((sendMessage ⟨[], "", false⟩ 0 ⟨[], none⟩).newMessageContent = "" ↔
          acceptedSend ⟨[], "", false⟩) := by
  constructor <;> decide

/-- C3 amended: for every invocation of sendMessage started while the
busy flag is clear and with a nonempty pending-input buffer, after the
invocation the busy flag is false, and the buffer equals the empty
string iff the call was accepted. -/
theorem claim_C3_amended_flags (s : AppState) (t0 : ℕ) (o : StreamOutcome)
    (hidle : s.isLoading = false) (hne : s.newMessageContent ≠ "") :
    (sendMessage s t0 o).isLoading = false ∧
      ((sendMessage s t0 o).newMessageContent = "" ↔ acceptedSend s) := by
  by_cases ha : acceptedSend s
  · obtain ⟨hbuf, hflag⟩ := sendMessage_flags s t0 o ha
    exact ⟨hflag, by rw [hbuf]; simp [ha]⟩
  · have htrim : jsTrim s.newMessageContent = "" := by
      by_contra htr
      exact ha ⟨htr, hidle⟩
    rw [sendMessage_rejected s t0 o (Or.inl htrim)]
    exact ⟨hidle, by simp [hne, ha]⟩

theorem claim_C3_amended_flags_witness :
    (⟨[], "  ", false⟩ : AppState).isLoading = false ∧
      (⟨[], "  ", false⟩ : AppState).newMessageContent ≠ "" ∧
      ((sendMessage ⟨[], "  ", false⟩ 2 ⟨[], none⟩).isLoading = false ∧
        ((sendMessage ⟨[], "  ", false⟩ 2 ⟨[], none⟩).newMessageContent = "" ↔
          acceptedSend ⟨[], "  ", false⟩)) :=
  ⟨rfl, by decide,
    claim_C3_amended_flags ⟨[], "  ", false⟩ 2 ⟨[], none⟩ rfl (by decide)⟩

/-- C4, the code contradicting the claimed id uniqueness: two sequential
accepted sends within the same millisecond (Date.now() returning 1000
both times; the stream of the first send is empty and completes normally, the
user then types "yo").  Both user messages get id = Date.now() = 1000,
so two distinct transcript entries (contents "hi" and "yo") share one
id. -/
theorem claim_C4_id_collision :
    ((sendMessage
          { sendMessage ⟨[], "hi", false⟩ 1000 ⟨[], none⟩ with
              newMessageContent := "yo" } 1000 ⟨[], none⟩).messages.map
        (fun m => m.id)) = [1000, 1000] ∧
      ((sendMessage
            { sendMessage ⟨[], "hi", false⟩ 1000 ⟨[], none⟩ with
                newMessageContent := "yo" } 1000 ⟨[], none⟩).messages.map
          (fun m => m.content)) = ["hi", "yo"] := by
  constructor <;> decide
